import Mathlib

/-!
Shallow embedding of the CloudBridge multi-terminal client
(`client/src/pages/terminal-management-page.tsx`, with the closely related
`client/src/components/terminal/terminal-component.tsx`).

The page keeps a `Map<string, TerminalSession>` in React state.  We model the
map as an association list in insertion order (JS `Map` preserves insertion
order; `set` on an existing key replaces the value in place, `set` on a new
key appends).  WebSocket objects are modelled by numeric socket identifiers
allocated from a counter `nextWs` carried in the page state: `new WebSocket`
always yields a fresh identifier.  Wall-clock readings (`toLocaleTimeString`,
`Date.now`) are passed in as explicit parameters.  Functions that call
`ws.send` return, alongside the new state, the list of messages sent, each
tagged with the socket identifier it was sent on.
-/

/-- Mirrors the `EC2Instance` interface of `terminal-management-page.tsx`.
`credentialId` is `Option Nat`: `none` models a target record that carries no
credential (JS `undefined`); JS treats `0` as falsy as well, which the
embedding of `credentialId || 1` accounts for. -/
structure EC2Instance where
  instanceId : String
  name : String
  privateIp : String
  publicIp : String
  state : String
  instanceType : String
  region : String
  keyName : String
  credentialId : Option Nat
deriving DecidableEq

/-- Mirrors the `TerminalOutput` interface: one entry of a session's output
log. -/
structure TerminalOutput where
  timestamp : String
  type : String
  content : String
  instanceId : String
deriving DecidableEq

/-- Mirrors the `TerminalSession` interface.  The `instance` field is called
`inst` because `instance` is a Lean keyword.  `ws` is the identifier of the
session's WebSocket (`none` = the JS `null`). -/
structure TerminalSession where
  instanceId : String
  inst : EC2Instance
  isConnected : Bool
  output : List TerminalOutput
  currentCommand : String
  ws : Option Nat
  isSelected : Bool
deriving DecidableEq

/-- The React state of `TerminalManagementPage`: the `terminalSessions` map
(as an insertion-ordered association list) plus the allocator for fresh
WebSocket identifiers. -/
structure PageState where
  sessions : List (String × TerminalSession)
  nextWs : Nat
deriving DecidableEq

/-- `Map.get` on the association list. -/
def mapGet? (m : List (String × TerminalSession)) (k : String) : Option TerminalSession :=
  match m with
  | [] => none
  | p :: rest => if p.1 = k then some p.2 else mapGet? rest k

/-- `Map.set` on the association list: replace in place if the key exists,
append otherwise (JS `Map` insertion-order semantics). -/
def mapSet (m : List (String × TerminalSession)) (k : String) (v : TerminalSession) :
    List (String × TerminalSession) :=
  match m with
  | [] => [(k, v)]
  | p :: rest => if p.1 = k then (k, v) :: rest else p :: mapSet rest k v

/-- JS `a || b` for an optional string `a` (both `undefined` and `""` are
falsy). -/
def jsOrStr (a : Option String) (b : String) : String :=
  match a with
  | some s => if s = "" then b else s
  | none => b

/-- JS `session.instance.credentialId || 1` (line 135 of the page): both a
missing and a zero credential fall back to the literal default `1`. -/
def credentialIdOf (i : EC2Instance) : Nat :=
  match i.credentialId with
  | some n => if n = 0 then 1 else n
  | none => 1

/-- The JSON message sent by `connectToInstance`'s `onopen` handler. -/
structure ConnectMsg where
  type : String
  host : String
  username : String
  keyName : String
  region : String
  credentialId : Nat
  instanceId : String
deriving DecidableEq

/-- The JSON message sent by `sendCommand`. -/
structure CommandMsg where
  type : String
  command : String
  instanceId : String
deriving DecidableEq

/-- The parsed fields of a frame received in `websocket.onmessage`:
`{instanceId, type?, message?, data}`. -/
structure WireData where
  instanceId : String
  type : Option String
  message : Option String
  data : String
deriving DecidableEq

/-- `addOutput` (lines 106-121): append one entry to the named session's
output log; a missing session makes it a no-op. -/
def addOutput (x : String) (ty content now : String) (st : PageState) : PageState :=
  match mapGet? st.sessions x with
  | none => st
  | some s =>
      { st with sessions := (mapSet st.sessions x
          ({ s with output := s.output ++ [⟨now, ty, content, x⟩] })) }

/-- The state update shared by `onerror`/`onclose`/`disconnectSelected`:
clear `isConnected` and `ws` on one session. -/
def clearConn (x : String) (st : PageState) : PageState :=
  match mapGet? st.sessions x with
  | none => st
  | some s =>
      { st with sessions := (mapSet st.sessions x
          ({ s with isConnected := false, ws := none })) }

/-- The second state update of `sendCommand`: reset `currentCommand` to `""`. -/
def clearCommand (x : String) (st : PageState) : PageState :=
  match mapGet? st.sessions x with
  | none => st
  | some s =>
      { st with sessions := (mapSet st.sessions x
          ({ s with currentCommand := "" })) }

/-- The `connect` message built in `connectToInstance`'s `onopen` handler
(lines 154-162): host/key/region come from the session's instance, the
credential from `credentialIdOf`. -/
def connectMessage (i : EC2Instance) (x : String) : ConnectMsg :=
  { type := "connect", host := i.privateIp, username := "ec2-user", keyName := i.keyName,
    region := i.region, credentialId := credentialIdOf i, instanceId := x }

/-- `connectToInstance` (lines 123-163), successful-open path: a *new*
WebSocket is constructed (fresh identifier `st.nextWs`), the session is
marked connected and bound to it, a system line is logged, and the
`connect` message is sent on the new socket.  A missing session is a no-op
(the code only shows a toast). -/
def connectOpen (x : String) (now : String) (st : PageState) : PageState × List (Nat × ConnectMsg) :=
  match mapGet? st.sessions x with
  | none => (st, [])
  | some s =>
      let sock := st.nextWs
      let st1 : PageState :=
        { sessions := mapSet st.sessions x ({ s with ws := some sock, isConnected := true }),
          nextWs := st.nextWs + 1 }
      let st2 := addOutput x "system"
        ("Connected to " ++ s.inst.name ++ " (" ++ s.inst.privateIp ++ ")") now st1
      (st2, [(sock, connectMessage s.inst x)])

/-- `websocket.onmessage` for the socket opened for session `x`
(lines 165-170): a frame is appended (via `addOutput`) only when the frame's
`instanceId` equals `x`. -/
def handleMessage (x : String) (d : WireData) (now : String) (st : PageState) : PageState :=
  if d.instanceId = x then
    addOutput x (jsOrStr d.type "output") (jsOrStr d.message d.data) now st
  else st

/-- `websocket.onerror` for session `x` (lines 172-182). -/
def handleError (x : String) (now : String) (st : PageState) : PageState :=
  clearConn x (addOutput x "error" "WebSocket connection error" now st)

/-- `websocket.onclose` for session `x` (lines 184-194). -/
def handleClose (x : String) (now : String) (st : PageState) : PageState :=
  clearConn x (addOutput x "system" "Connection closed" now st)

/-- `sendCommand` (lines 201-220): only when the session has a non-null
socket and `isConnected` does it echo the input, send one `command` message
on the session's socket and reset `currentCommand`; otherwise nothing at all
happens. -/
def sendCommand (x c : String) (now : String) (st : PageState) :
    PageState × List (Nat × CommandMsg) :=
  match mapGet? st.sessions x with
  | some s =>
      match s.ws with
      | some w =>
          if s.isConnected then
            (clearCommand x (addOutput x "input" ("$ " ++ c) now st),
             [(w, { type := "command", command := c, instanceId := x })])
          else (st, [])
      | none => (st, [])
  | none => (st, [])

/-- The identifier `` `${instanceId}_duplicate_${Date.now()}` `` built by
`duplicateSession` (line 284), with the millisecond clock passed in. -/
def dupId (x : String) (t : Nat) : String :=
  x ++ "_duplicate_" ++ Nat.repr t

/-- `duplicateSession` (lines 280-299): insert a fresh disconnected session
under `dupId x t` copying only the instance from the original.  (The
deferred auto-connect is a separate later `connectToInstance` call.) -/
def duplicateSession (x : String) (t : Nat) (st : PageState) : PageState :=
  match mapGet? st.sessions x with
  | none => st
  | some s =>
      { st with sessions := (mapSet st.sessions (dupId x t)
          ({ s with instanceId := dupId x t, isConnected := false, output := [],
                    currentCommand := "", ws := none, isSelected := false })) }

/-- `exitTerminals` (lines 323-338): call `close()` on every session's
non-null socket, and leave the `terminalSessions` map untouched (the code
only navigates away and shows a toast).  Returns the unchanged state and the
list of sockets that received a `close()` call. -/
def exitTerminals (st : PageState) : PageState × List Nat :=
  (st, st.sessions.filterMap (fun p => p.2.ws))

/-- A session as created by the init effect (lines 64-75). -/
def initialSession (i : EC2Instance) : TerminalSession :=
  { instanceId := i.instanceId, inst := i, isConnected := false, output := [],
    currentCommand := "", ws := none, isSelected := false }

/-- Single-character split: the JS `s.split(',')` semantics (every comma is
a separator, empty segments preserved), by structural recursion over the
character list. -/
def splitCommaAux : List Char → List Char → List String
  | [], acc => [acc.reverse.asString]
  | c :: rest, acc =>
      if c = ',' then acc.reverse.asString :: splitCommaAux rest []
      else splitCommaAux rest (c :: acc)

/-- `params.get('instances')?.split(',') || []` (line 57). -/
def parseInstances (q : Option String) : List String :=
  match q with
  | some s => splitCommaAux s.data []
  | none => []

/-- The init effect (lines 55-83): when both the id list and the fetched
inventory are non-empty, keep the instances whose id occurs in the list,
build one fresh session per kept instance, and issue one deferred
`connectToInstance` call per kept instance (returned as the list of ids, in
order). -/
def initFromQuery (ids : List String) (allInstances : List EC2Instance) :
    PageState × List String :=
  if ids ≠ [] ∧ allInstances ≠ [] then
    let selected := allInstances.filter (fun i => ids.contains i.instanceId)
    ({ sessions := selected.foldl (fun m i => mapSet m i.instanceId (initialSession i)) [],
       nextWs := 0 },
     selected.map (fun i => i.instanceId))
  else ({ sessions := [], nextWs := 0 }, [])

/-- Every socket identifier held by a session was previously allocated,
i.e. is below the `nextWs` counter. -/
def wsBound (st : PageState) : Prop :=
  ∀ x s w, mapGet? st.sessions x = some s → s.ws = some w → w < st.nextWs

example : mapGet? (mapSet [] "a" (initialSession ⟨"a", "n", "ip", "pub", "running", "t3", "r", "k", none⟩)) "a" ≠ none := by decide

/-- Decimal digit list (most significant first) of a natural number; the
reference form of the string `Nat.toDigitsCore` builds for the
`` `${Date.now()}` `` interpolation inside `dupId`. -/
def decRepr (n : Nat) : List Char :=
  if _h : n < 10 then [Nat.digitChar n]
  else decRepr (n / 10) ++ [Nat.digitChar (n % 10)]
decreasing_by
  exact Nat.div_lt_self (by omega) (by omega)

/-- Numeric value of a decimal digit character (left inverse of
`Nat.digitChar` on digits). -/
def charVal (c : Char) : Nat := c.toNat - 48

/-- Value of a most-significant-first decimal digit string. -/
def ofDecChars (l : List Char) : Nat :=
  l.foldl (fun acc c => 10 * acc + charVal c) 0

/-! ### Concrete fixtures used by witnesses and counterexamples -/

/-- A running instance whose record carries no credential (`credentialId`
missing). -/
def instNoCredA : EC2Instance :=
  { instanceId := "i-0aaa", name := "alpha", privateIp := "10.0.0.1", publicIp := "3.1.1.1",
    state := "running", instanceType := "t3.micro", region := "us-east-1", keyName := "key-a",
    credentialId := none }

/-- A second credential-less instance in a different account/region with a
different key. -/
def instNoCredB : EC2Instance :=
  { instanceId := "i-0bbb", name := "beta", privateIp := "10.0.0.2", publicIp := "3.2.2.2",
    state := "running", instanceType := "m5.large", region := "eu-west-1", keyName := "key-b",
    credentialId := none }

/-- An instance that does carry a credential. -/
def instWithCred : EC2Instance :=
  { instanceId := "i-0ccc", name := "gamma", privateIp := "10.0.0.3", publicIp := "3.3.3.3",
    state := "running", instanceType := "t3.small", region := "ap-south-1", keyName := "key-c",
    credentialId := some 7 }

/-- Page state with two never-connected sessions. -/
def stTwoIdle : PageState :=
  { sessions := [("i-0aaa", initialSession instNoCredA), ("i-0bbb", initialSession instNoCredB)],
    nextWs := 0 }

/-- One session that is connected and bound to socket `0`. -/
def connectedSession : TerminalSession :=
  { initialSession instWithCred with isConnected := true, ws := some 0 }

/-- Page state with exactly one connected session (socket `0` live). -/
def stOneConnected : PageState :=
  { sessions := [("i-0ccc", connectedSession)], nextWs := 1 }

/-- Page state with exactly one disconnected session. -/
def stOneIdle : PageState :=
  { sessions := [("i-0ccc", initialSession instWithCred)], nextWs := 0 }

/-! ### Association-list lemmas -/

theorem mapGet?_set_self (m : List (String × TerminalSession)) (k : String) (v : TerminalSession) :
    mapGet? (mapSet m k v) k = some v := by
  induction m with
  | nil => simp [mapSet, mapGet?]
  | cons p rest ih =>
      by_cases h : p.1 = k
      · simp [mapSet, mapGet?, h]
      · simp [mapSet, mapGet?, h, ih]

theorem mapGet?_set_ne (m : List (String × TerminalSession)) (k k' : String) (v : TerminalSession)
    (h : k' ≠ k) : mapGet? (mapSet m k v) k' = mapGet? m k' := by
  induction m with
  | nil => simp [mapSet, mapGet?, Ne.symm h]
  | cons p rest ih =>
      by_cases hp : p.1 = k
      · have hpk : p.1 ≠ k' := by rw [hp]; exact Ne.symm h
        simp [mapSet, mapGet?, hp, hpk, Ne.symm h]
      · by_cases hq : p.1 = k'
        · simp [mapSet, mapGet?, hp, hq, h]
        · simp [mapSet, mapGet?, hp, hq, ih]

/-! ### Effect lemmas for the elementary state updates -/

theorem addOutput_get_self (x ty c now : String) (st : PageState) (s : TerminalSession)
    (h : mapGet? st.sessions x = some s) :
    mapGet? (addOutput x ty c now st).sessions x =
      some ({ s with output := s.output ++ [⟨now, ty, c, x⟩] }) := by
  simp [addOutput, h, mapGet?_set_self]

theorem addOutput_get_ne (x ty c now : String) (st : PageState) (y : String) (h : y ≠ x) :
    mapGet? (addOutput x ty c now st).sessions y = mapGet? st.sessions y := by
  unfold addOutput
  cases hm : mapGet? st.sessions x <;> simp [mapGet?_set_ne _ _ _ _ h]

theorem addOutput_nextWs (x ty c now : String) (st : PageState) :
    (addOutput x ty c now st).nextWs = st.nextWs := by
  unfold addOutput
  cases hm : mapGet? st.sessions x <;> simp

theorem clearConn_get_self (x : String) (st : PageState) (s : TerminalSession)
    (h : mapGet? st.sessions x = some s) :
    mapGet? (clearConn x st).sessions x = some ({ s with isConnected := false, ws := none }) := by
  simp [clearConn, h, mapGet?_set_self]

theorem clearConn_get_ne (x : String) (st : PageState) (y : String) (h : y ≠ x) :
    mapGet? (clearConn x st).sessions y = mapGet? st.sessions y := by
  unfold clearConn
  cases hm : mapGet? st.sessions x <;> simp [mapGet?_set_ne _ _ _ _ h]

theorem clearCommand_get_self (x : String) (st : PageState) (s : TerminalSession)
    (h : mapGet? st.sessions x = some s) :
    mapGet? (clearCommand x st).sessions x = some ({ s with currentCommand := "" }) := by
  simp [clearCommand, h, mapGet?_set_self]

theorem clearCommand_get_ne (x : String) (st : PageState) (y : String) (h : y ≠ x) :
    mapGet? (clearCommand x st).sessions y = mapGet? st.sessions y := by
  unfold clearCommand
  cases hm : mapGet? st.sessions x <;> simp [mapGet?_set_ne _ _ _ _ h]

/-! ### Decimal-representation lemmas (for `dupId`) -/

theorem decRepr_lt {n : Nat} (h : n < 10) : decRepr n = [Nat.digitChar n] := by
  rw [decRepr]
  simp [h]

theorem decRepr_ge {n : Nat} (h : ¬ n < 10) :
    decRepr n = decRepr (n / 10) ++ [Nat.digitChar (n % 10)] := by
  rw [decRepr]
  simp [h]

theorem toDigitsCore_eq_decRepr :
    ∀ (f n : Nat) (acc : List Char), n < f →
      Nat.toDigitsCore 10 f n acc = decRepr n ++ acc := by
  intro f
  induction f with
  | zero => intro n acc h; omega
  | succ f ih =>
      intro n acc h
      by_cases h10 : n < 10
      · have hdiv : n / 10 = 0 := Nat.div_eq_of_lt h10
        have hmod : n % 10 = n := Nat.mod_eq_of_lt h10
        simp [Nat.toDigitsCore, hdiv, hmod, decRepr_lt h10]
      · have hdiv : ¬ n / 10 = 0 := by omega
        have hlt : n / 10 < f := by omega
        simp [Nat.toDigitsCore, hdiv, ih _ _ hlt, decRepr_ge h10]

theorem repr_eq_decRepr (n : Nat) : Nat.repr n = (decRepr n).asString := by
  have h : n < n + 1 := Nat.lt_succ_self n
  simp [Nat.repr, Nat.toDigits, toDigitsCore_eq_decRepr (n + 1) n [] h]

theorem charVal_digitChar {d : Nat} (h : d < 10) : charVal (Nat.digitChar d) = d := by
  interval_cases d <;> rfl

theorem foldl_decRepr (n : Nat) :
    ∀ k, List.foldl (fun acc c => 10 * acc + charVal c) k (decRepr n) =
      k * 10 ^ (decRepr n).length + n := by
  induction n using Nat.strong_induction_on with
  | _ n ih =>
      intro k
      by_cases h10 : n < 10
      · simp [decRepr_lt h10, charVal_digitChar h10]
        omega
      · have h0 : 0 < n := by omega
        have hlt : n / 10 < n := Nat.div_lt_self h0 (by omega)
        have hmod : n % 10 < 10 := Nat.mod_lt _ (by omega)
        rw [decRepr_ge h10, List.foldl_append]
        simp only [List.foldl_cons, List.foldl_nil, ih _ hlt, charVal_digitChar hmod,
          List.length_append, List.length_singleton]
        rw [pow_succ]
        have hdm := Nat.div_add_mod n 10
        ring_nf
        omega

theorem ofDecChars_decRepr (n : Nat) : ofDecChars (decRepr n) = n := by
  have h := foldl_decRepr n 0
  simpa [ofDecChars] using h

theorem decRepr_injective {a b : Nat} (h : decRepr a = decRepr b) : a = b := by
  have ha := ofDecChars_decRepr a
  rw [h, ofDecChars_decRepr b] at ha
  exact ha.symm

theorem natRepr_injective {a b : Nat} (h : Nat.repr a = Nat.repr b) : a = b := by
  rw [repr_eq_decRepr, repr_eq_decRepr] at h
  exact decRepr_injective (List.asString_inj.mp h)

/-! ### String helpers for `dupId` -/

theorem stringData_eq {a b : String} (h : a.data = b.data) : a = b :=
  (String.asString_toList a).symm.trans ((congrArg List.asString h).trans (String.asString_toList b))

theorem dupId_ne_base (x : String) (t : Nat) : dupId x t ≠ x := by
  intro h
  have hl := congrArg String.length h
  rw [dupId] at hl
  rw [String.length_append, String.length_append] at hl
  have h11 : ("_duplicate_" : String).length = 11 := rfl
  omega

theorem dupId_time_injective (x : String) {t1 t2 : Nat} (h : dupId x t1 = dupId x t2) : t1 = t2 := by
  have hd := congrArg String.data h
  rw [dupId, dupId] at hd
  rw [String.data_append, String.data_append, String.data_append, String.data_append] at hd
  have hr : (Nat.repr t1).data = (Nat.repr t2).data :=
    List.append_cancel_left (List.append_cancel_left (by rwa [List.append_assoc, List.append_assoc] at hd))
  exact natRepr_injective (stringData_eq hr)

/-! ### Further association-list helpers -/

theorem mapGet?_mem (m : List (String × TerminalSession)) (k : String) (v : TerminalSession)
    (h : mapGet? m k = some v) : (k, v) ∈ m := by
  induction m with
  | nil => simp [mapGet?] at h
  | cons p rest ih =>
      by_cases hp : p.1 = k
      · simp [mapGet?, hp] at h
        have hpv : p = (k, v) := by
          cases p
          simp_all
        rw [← hpv]
        exact List.mem_cons_self _ _
      · simp [mapGet?, hp] at h
        exact List.mem_cons_of_mem _ (ih h)

theorem wsBound_of_all_none (st : PageState) (h : ∀ p ∈ st.sessions, p.2.ws = none) :
    wsBound st := by
  intro x s w hx hw
  have hn := h (x, s) (mapGet?_mem _ _ _ hx)
  simp only at hn
  rw [hn] at hw
  cases hw

theorem mapSet_append (m : List (String × TerminalSession)) (k : String) (v : TerminalSession)
    (h : mapGet? m k = none) : mapSet m k v = m ++ [(k, v)] := by
  induction m with
  | nil => rfl
  | cons p rest ih =>
      by_cases hp : p.1 = k
      · simp [mapGet?, hp] at h
      · simp only [mapGet?, if_neg hp] at h
        simp [mapSet, hp, ih h]

theorem mapGet?_append_none (m m' : List (String × TerminalSession)) (k : String)
    (h : mapGet? m k = none) : mapGet? (m ++ m') k = mapGet? m' k := by
  induction m with
  | nil => rfl
  | cons p rest ih =>
      by_cases hp : p.1 = k
      · simp [mapGet?, hp] at h
      · simp only [mapGet?, if_neg hp] at h
        simp [mapGet?, hp, ih h]

theorem foldl_mapSet_fresh :
    ∀ (l : List EC2Instance) (m : List (String × TerminalSession)),
      (l.map (fun i => i.instanceId)).Nodup →
      (∀ i ∈ l, mapGet? m i.instanceId = none) →
      l.foldl (fun m i => mapSet m i.instanceId (initialSession i)) m =
        m ++ l.map (fun i => (i.instanceId, initialSession i)) := by
  intro l
  induction l with
  | nil => intro m _ _; simp
  | cons i rest ih =>
      intro m hnd hfresh
      have hm : mapGet? m i.instanceId = none := hfresh i (List.mem_cons_self _ _)
      rw [List.foldl_cons, mapSet_append _ _ _ hm]
      rw [List.map_cons, List.nodup_cons] at hnd
      have hfresh' : ∀ j ∈ rest, mapGet? (m ++ [(i.instanceId, initialSession i)]) j.instanceId = none := by
        intro j hj
        have hne : ¬ i.instanceId = j.instanceId := by
          intro he
          exact hnd.1 (he ▸ List.mem_map_of_mem (fun k => k.instanceId) hj)
        rw [mapGet?_append_none _ _ _ (hfresh j (List.mem_cons_of_mem _ hj))]
        simp [mapGet?, hne]
      rw [ih _ hnd.2 hfresh']
      simp

theorem filterMap_ws_length :
    ∀ (l : List (String × TerminalSession)),
      (∀ p ∈ l, p.2.ws.isSome = p.2.isConnected) →
      (l.filterMap (fun p => p.2.ws)).length = l.countP (fun p => p.2.isConnected) := by
  intro l
  induction l with
  | nil => intro _; rfl
  | cons p rest ih =>
      intro hp
      have hhead := hp p (List.mem_cons_self _ _)
      have htail := ih (fun q hq => hp q (List.mem_cons_of_mem _ hq))
      cases hws : p.2.ws with
      | none =>
          have hc : p.2.isConnected = false := by rw [← hhead, hws]; rfl
          simp [List.filterMap_cons, hws, List.countP_cons, hc, htail]
      | some w =>
          have hc : p.2.isConnected = true := by rw [← hhead, hws]; rfl
          simp [List.filterMap_cons, hws, List.countP_cons, hc, htail]

/-! ### Claim C5 -/

/-- C5: the `onmessage` handler bound to session `x` appends a frame to `x`'s
output log only when the frame's `instanceId` equals `x`; a frame for any
other session leaves the whole state unchanged, and in every case the entry
of every session other than `x` is unchanged. -/
theorem message_routing_scoped (x : String) (d : WireData) (now : String) (st : PageState) :
    (∀ y, y ≠ x → mapGet? (handleMessage x d now st).sessions y = mapGet? st.sessions y) ∧
    (d.instanceId ≠ x → handleMessage x d now st = st) ∧
    (∀ s, d.instanceId = x → mapGet? st.sessions x = some s →
      mapGet? (handleMessage x d now st).sessions x =
        some ({ s with output := (s.output ++
          [⟨now, jsOrStr d.type "output", jsOrStr d.message d.data, x⟩]) })) := by
  refine ⟨?_, ?_, ?_⟩
  · intro y hy
    unfold handleMessage
    by_cases hd : d.instanceId = x
    · simp [hd, addOutput_get_ne _ _ _ _ _ _ hy]
    · simp [hd]
  · intro hd
    simp [handleMessage, hd]
  · intro s hd hs
    simp [handleMessage, hd, addOutput_get_self _ _ _ _ _ _ hs]

/-- C5 witness: a matching frame is appended to the one session's log, a
non-matching frame changes nothing. -/
theorem message_routing_scoped_witness :
    mapGet? (handleMessage "i-0ccc" ⟨"i-0ccc", none, none, "hello"⟩ "10:00:00"
        stOneConnected).sessions "i-0ccc" =
      some ({ connectedSession with output := (connectedSession.output ++
        [⟨"10:00:00", "output", "hello", "i-0ccc"⟩]) }) ∧
    handleMessage "i-0ccc" ⟨"i-0aaa", none, none, "stray"⟩ "10:00:00" stOneConnected =
      stOneConnected :=
  ⟨(message_routing_scoped "i-0ccc" ⟨"i-0ccc", none, none, "hello"⟩ "10:00:00"
      stOneConnected).2.2 connectedSession rfl (by decide),
   (message_routing_scoped "i-0ccc" ⟨"i-0aaa", none, none, "stray"⟩ "10:00:00"
      stOneConnected).2.1 (by decide)⟩

/-! ### Claim C6 -/

/-- C6 counterexample: on a session that is not connected, `sendCommand` is a
complete silent no-op — the state (including the session's output log) is
unchanged and no message is sent, so no `NotReady` (or any other) error
surfaces anywhere, contrary to the claim that the write "fails with a
NotReady error". -/
theorem sendCommand_silent_drop_cex :
    sendCommand "i-0ccc" "ls" "10:00:00" stOneIdle = (stOneIdle, []) := by decide

/-- C6 amended: writing on a session that is not connected (flag down or no
socket) is silently dropped: nothing is sent, nothing is queued, and the
state — the session's log, pending command and everything else — is
unchanged; no error of any kind is produced. -/
theorem sendCommand_not_ready_drop (x c now : String) (st : PageState) (s : TerminalSession)
    (h : mapGet? st.sessions x = some s) (hns : s.isConnected = false ∨ s.ws = none) :
    sendCommand x c now st = (st, []) := by
  unfold sendCommand
  rw [h]
  rcases hns with hc | hw
  · cases hws : s.ws <;> simp [hc, hws]
  · simp [hw]

/-- C6 witness: the amended no-op behaviour at a concrete disconnected
session. -/
theorem sendCommand_not_ready_drop_witness :
    sendCommand "i-0ccc" "pwd" "10:00:01" stOneIdle = (stOneIdle, []) :=
  sendCommand_not_ready_drop "i-0ccc" "pwd" "10:00:01" stOneIdle
    (initialSession instWithCred) (by decide) (Or.inl (by decide))

/-! ### Claim C7 -/

/-- C7: duplicating session `x` inserts a brand-new session under the fresh
identifier `dupId x t` (differing from `x`), with empty output log,
disconnected state, empty pending command and no socket, against the same
target instance; `x`'s own entry is untouched. -/
theorem duplicateSession_fresh_independent (x : String) (t : Nat) (st : PageState)
    (s : TerminalSession) (h : mapGet? st.sessions x = some s) :
    dupId x t ≠ x ∧
    mapGet? (duplicateSession x t st).sessions (dupId x t) =
      some ({ s with instanceId := dupId x t, isConnected := false, output := [],
                     currentCommand := "", ws := none, isSelected := false }) ∧
    mapGet? (duplicateSession x t st).sessions x = some s := by
  refine ⟨dupId_ne_base x t, ?_, ?_⟩
  · unfold duplicateSession
    rw [h]
    simp [mapGet?_set_self]
  · unfold duplicateSession
    rw [h]
    simp [h, mapGet?_set_ne _ _ _ _ (Ne.symm (dupId_ne_base x t))]

/-- C7 witness: duplicating the connected session of `stOneConnected`. -/
theorem duplicateSession_fresh_independent_witness :
    dupId "i-0ccc" 1748417512 ≠ "i-0ccc" ∧
    mapGet? (duplicateSession "i-0ccc" 1748417512 stOneConnected).sessions
        (dupId "i-0ccc" 1748417512) =
      some ({ connectedSession with instanceId := dupId "i-0ccc" 1748417512,
                                    isConnected := false, output := [], currentCommand := "",
                                    ws := none, isSelected := false }) ∧
    mapGet? (duplicateSession "i-0ccc" 1748417512 stOneConnected).sessions "i-0ccc" =
      some connectedSession :=
  duplicateSession_fresh_independent "i-0ccc" 1748417512 stOneConnected connectedSession
    (by decide)

/-! ### Claim C8 -/

/-- C8: a transport error event or close event on session `x`'s socket
appends exactly one `error`/`system` entry to `x`'s log and clears `x`'s
connection state (`isConnected := false`, `ws := null`); the entry of every
other session is unchanged. -/
theorem socket_failure_scoped (x now : String) (st : PageState) (s : TerminalSession)
    (h : mapGet? st.sessions x = some s) :
    (mapGet? (handleError x now st).sessions x =
        some ({ s with output := (s.output ++ [⟨now, "error", "WebSocket connection error", x⟩]),
                       isConnected := false, ws := none }) ∧
      ∀ y, y ≠ x → mapGet? (handleError x now st).sessions y = mapGet? st.sessions y) ∧
    (mapGet? (handleClose x now st).sessions x =
        some ({ s with output := (s.output ++ [⟨now, "system", "Connection closed", x⟩]),
                       isConnected := false, ws := none }) ∧
      ∀ y, y ≠ x → mapGet? (handleClose x now st).sessions y = mapGet? st.sessions y) := by
  refine ⟨⟨?_, ?_⟩, ⟨?_, ?_⟩⟩
  · unfold handleError
    rw [clearConn_get_self x _ _ (addOutput_get_self _ _ _ _ _ _ h)]
  · intro y hy
    unfold handleError
    rw [clearConn_get_ne _ _ _ hy, addOutput_get_ne _ _ _ _ _ _ hy]
  · unfold handleClose
    rw [clearConn_get_self x _ _ (addOutput_get_self _ _ _ _ _ _ h)]
  · intro y hy
    unfold handleClose
    rw [clearConn_get_ne _ _ _ hy, addOutput_get_ne _ _ _ _ _ _ hy]

/-- C8 witness: an error event on the two-session state touches only the
failing session. -/
theorem socket_failure_scoped_witness :
    mapGet? (handleError "i-0aaa" "11:00:00" stTwoIdle).sessions "i-0aaa" =
      some ({ initialSession instNoCredA with output := ((initialSession instNoCredA).output ++
                                                [⟨"11:00:00", "error", "WebSocket connection error", "i-0aaa"⟩]),
                                              isConnected := false, ws := none }) ∧
    mapGet? (handleError "i-0aaa" "11:00:00" stTwoIdle).sessions "i-0bbb" =
      mapGet? stTwoIdle.sessions "i-0bbb" :=
  ⟨(socket_failure_scoped "i-0aaa" "11:00:00" stTwoIdle (initialSession instNoCredA)
      (by decide)).1.1,
   (socket_failure_scoped "i-0aaa" "11:00:00" stTwoIdle (initialSession instNoCredA)
      (by decide)).1.2 "i-0bbb" (by decide)⟩

/-! ### Claim C10 -/

/-- C10: on a connected session with a live socket, `sendCommand` sends
exactly one `command` message on that session's own socket, appends exactly
one input-echo entry `"$ " ++ c` to that session's log, resets the pending
command to `""`, and leaves every other session unchanged. -/
theorem sendCommand_connected_effect (x c now : String) (st : PageState) (s : TerminalSession)
    (w : Nat) (h : mapGet? st.sessions x = some s) (hw : s.ws = some w)
    (hc : s.isConnected = true) :
    (sendCommand x c now st).2 = [(w, { type := "command", command := c, instanceId := x })] ∧
    mapGet? (sendCommand x c now st).1.sessions x =
      some ({ s with output := (s.output ++ [⟨now, "input", "$ " ++ c, x⟩]),
                     currentCommand := "" }) ∧
    (∀ y, y ≠ x → mapGet? (sendCommand x c now st).1.sessions y = mapGet? st.sessions y) := by
  have hred : sendCommand x c now st =
      (clearCommand x (addOutput x "input" ("$ " ++ c) now st),
       [(w, { type := "command", command := c, instanceId := x })]) := by
    simp [sendCommand, h, hw, hc]
  refine ⟨by rw [hred], ?_, ?_⟩
  · rw [hred]
    exact clearCommand_get_self x _ _ (addOutput_get_self _ _ _ _ _ _ h)
  · intro y hy
    rw [hred]
    exact (clearCommand_get_ne _ _ _ hy).trans (addOutput_get_ne _ _ _ _ _ _ hy)

/-- C10 witness: sending `ls` on the connected session of `stOneConnected`. -/
theorem sendCommand_connected_effect_witness :
    (sendCommand "i-0ccc" "ls" "12:00:00" stOneConnected).2 =
      [(0, { type := "command", command := "ls", instanceId := "i-0ccc" })] ∧
    mapGet? (sendCommand "i-0ccc" "ls" "12:00:00" stOneConnected).1.sessions "i-0ccc" =
      some ({ connectedSession with output := (connectedSession.output ++
                                      [⟨"12:00:00", "input", "$ ls", "i-0ccc"⟩]),
                                    currentCommand := "" }) :=
  ⟨(sendCommand_connected_effect "i-0ccc" "ls" "12:00:00" stOneConnected connectedSession 0
      (by decide) rfl rfl).1,
   (sendCommand_connected_effect "i-0ccc" "ls" "12:00:00" stOneConnected connectedSession 0
      (by decide) rfl rfl).2.1⟩

/-! ### Claim C1 -/

/-- C1 counterexample: the two targets `instNoCredA`/`instNoCredB` carry no
credential at all, yet connecting each of them sends a `connect` message
authenticating with credential `1` — the literal fallback of
`credentialId || 1` — rather than failing or deriving the credential from
the target. -/
theorem connect_default_credential_cex :
    instNoCredA.credentialId = none ∧ instNoCredB.credentialId = none ∧
    ((connectOpen "i-0aaa" "09:00:00" stTwoIdle).2.map (fun p => p.2.credentialId)) = [1] ∧
    ((connectOpen "i-0bbb" "09:00:00" stTwoIdle).2.map (fun p => p.2.credentialId)) = [1] := by
  decide

/-- C1 amended: the `connect` message's key name, region and host always come
from the target instance, and its credential comes from the target whenever
the target carries a non-zero credential; but when the target carries no
credential (or credential `0`), the literal global default `1` is used
instead. -/
theorem connect_credential_selection (i : EC2Instance) (x : String) :
    (connectMessage i x).keyName = i.keyName ∧
    (connectMessage i x).region = i.region ∧
    (connectMessage i x).host = i.privateIp ∧
    (∀ c, i.credentialId = some c → c ≠ 0 → (connectMessage i x).credentialId = c) ∧
    ((i.credentialId = none ∨ i.credentialId = some 0) → (connectMessage i x).credentialId = 1) := by
  refine ⟨rfl, rfl, rfl, ?_, ?_⟩
  · intro c hcred hc0
    simp [connectMessage, credentialIdOf, hcred, hc0]
  · rintro (hcred | hcred) <;> simp [connectMessage, credentialIdOf, hcred]

/-- C1 witness: a target with credential `7` keeps it, a credential-less
target gets the default `1`. -/
theorem connect_credential_selection_witness :
    (connectMessage instWithCred "i-0ccc").keyName = instWithCred.keyName ∧
    (connectMessage instWithCred "i-0ccc").credentialId = 7 ∧
    (connectMessage instNoCredA "i-0aaa").credentialId = 1 :=
  ⟨(connect_credential_selection instWithCred "i-0ccc").1,
   (connect_credential_selection instWithCred "i-0ccc").2.2.2.1 7 rfl (by decide),
   (connect_credential_selection instNoCredA "i-0aaa").2.2.2.2 (Or.inl rfl)⟩

/-! ### Claim C2 -/

/-- C2 counterexample: connecting the two sessions of `stTwoIdle` constructs
two distinct WebSockets (identifiers 0 and 1), one per session — the
sessions do not share one control channel; opening an additional target
creates an additional connection. -/
theorem one_socket_per_session_cex :
    (Option.map (fun s => s.ws)
      (mapGet? (connectOpen "i-0bbb" "09:00:01"
        (connectOpen "i-0aaa" "09:00:00" stTwoIdle).1).1.sessions "i-0aaa") = some (some 0)) ∧
    (Option.map (fun s => s.ws)
      (mapGet? (connectOpen "i-0bbb" "09:00:01"
        (connectOpen "i-0aaa" "09:00:00" stTwoIdle).1).1.sessions "i-0bbb") = some (some 1)) := by
  decide

/-- C2 amended: each `connectToInstance` call allocates a brand-new socket
for the one session being connected — distinct from every socket already
held by any session — binds only that session to it, sends the single
`connect` message on it, and leaves every other session's entry unchanged. -/
theorem connect_allocates_fresh_socket (x now : String) (st : PageState) (s : TerminalSession)
    (hb : wsBound st) (h : mapGet? st.sessions x = some s) :
    mapGet? (connectOpen x now st).1.sessions x =
      some ({ s with ws := some st.nextWs, isConnected := true,
                     output := (s.output ++ [⟨now, "system",
                       "Connected to " ++ s.inst.name ++ " (" ++ s.inst.privateIp ++ ")", x⟩]) }) ∧
    (∀ y, y ≠ x → mapGet? (connectOpen x now st).1.sessions y = mapGet? st.sessions y) ∧
    (∀ y sy wy, mapGet? st.sessions y = some sy → sy.ws = some wy → wy ≠ st.nextWs) ∧
    (connectOpen x now st).2 = [(st.nextWs, connectMessage s.inst x)] := by
  have hred : connectOpen x now st =
      (addOutput x "system" ("Connected to " ++ s.inst.name ++ " (" ++ s.inst.privateIp ++ ")") now
        { sessions := mapSet st.sessions x ({ s with ws := some st.nextWs, isConnected := true }),
          nextWs := st.nextWs + 1 },
       [(st.nextWs, connectMessage s.inst x)]) := by
    simp [connectOpen, h]
  refine ⟨?_, ?_, ?_, by rw [hred]⟩
  · rw [hred]
    have hmid : mapGet? (PageState.mk
        (mapSet st.sessions x ({ s with ws := some st.nextWs, isConnected := true }))
        (st.nextWs + 1)).sessions x =
        some ({ s with ws := some st.nextWs, isConnected := true }) :=
      mapGet?_set_self st.sessions x _
    exact addOutput_get_self _ _ _ _ _ _ hmid
  · intro y hy
    rw [hred]
    exact (addOutput_get_ne _ _ _ _ _ _ hy).trans (mapGet?_set_ne _ _ _ _ hy)
  · intro y sy wy hys hwy
    have := hb y sy wy hys hwy
    omega

/-- C2 witness: connecting the first idle session binds it to the fresh
socket 0 and sends the `connect` message there. -/
theorem connect_allocates_fresh_socket_witness :
    mapGet? (connectOpen "i-0aaa" "09:00:00" stTwoIdle).1.sessions "i-0aaa" =
      some ({ initialSession instNoCredA with
                ws := some 0, isConnected := true,
                output := ((initialSession instNoCredA).output ++ [⟨"09:00:00", "system",
                  "Connected to " ++ instNoCredA.name ++ " (" ++ instNoCredA.privateIp ++ ")",
                  "i-0aaa"⟩]) }) ∧
    (connectOpen "i-0aaa" "09:00:00" stTwoIdle).2 = [(0, connectMessage instNoCredA "i-0aaa")] :=
  ⟨(connect_allocates_fresh_socket "i-0aaa" "09:00:00" stTwoIdle (initialSession instNoCredA)
      (wsBound_of_all_none stTwoIdle (by decide)) (by decide)).1,
   (connect_allocates_fresh_socket "i-0aaa" "09:00:00" stTwoIdle (initialSession instNoCredA)
      (wsBound_of_all_none stTwoIdle (by decide)) (by decide)).2.2.2⟩

/-! ### Claim C3 -/

/-- C3 counterexample: closing the whole view while one connected session is
open does perform its one transport close, but the `terminalSessions`
registry still holds that session afterwards — `exitTerminals` never empties
the map, contradicting "afterwards the session registry is empty". -/
theorem exit_keeps_registry_cex :
    (exitTerminals stOneConnected).2 = [0] ∧
    (exitTerminals stOneConnected).1.sessions.length = 1 := by
  decide

/-- C3 amended: when every session's socket presence agrees with its
connected flag, `exitTerminals` performs exactly one transport-close call
per connected session (K calls for K connected sessions) and leaves the
`terminalSessions` map unchanged — the registry is not emptied. -/
theorem exitTerminals_close_calls (st : PageState)
    (hinv : ∀ p ∈ st.sessions, p.2.ws.isSome = p.2.isConnected) :
    (exitTerminals st).1 = st ∧
    (exitTerminals st).2.length = st.sessions.countP (fun p => p.2.isConnected) :=
  ⟨rfl, filterMap_ws_length st.sessions hinv⟩

/-- C3 witness: the amended close-call count on the one-connected-session
state. -/
theorem exitTerminals_close_calls_witness :
    (exitTerminals stOneConnected).1 = stOneConnected ∧
    (exitTerminals stOneConnected).2.length =
      stOneConnected.sessions.countP (fun p => p.2.isConnected) :=
  exitTerminals_close_calls stOneConnected (by decide)

/-! ### Claim C4 -/

/-- C4 counterexample: two `duplicateSession` calls on the same base session
with the same `Date.now()` millisecond reading build the same identifier, so
the second insert overwrites the first: after two duplicate operations the
registry holds only 2 sessions, not 3 — the two open operations did not
yield distinct identifiers. -/
theorem duplicate_collision_cex :
    (duplicateSession "i-0ccc" 1748417512 stOneIdle).sessions.length = 2 ∧
    (duplicateSession "i-0ccc" 1748417512
      (duplicateSession "i-0ccc" 1748417512 stOneIdle)).sessions.length = 2 := by
  decide

/-- C4 amended: a duplicate's identifier always differs from its base
identifier, and duplicates of the same base made at distinct millisecond
timestamps get distinct identifiers; identifiers are not unique across
arbitrary open sequences (same-base same-millisecond duplicates collide). -/
theorem dupId_fresh (x : String) (t1 t2 : Nat) :
    dupId x t1 ≠ x ∧ (t1 ≠ t2 → dupId x t1 ≠ dupId x t2) :=
  ⟨dupId_ne_base x t1, fun ht he => ht (dupId_time_injective x he)⟩

/-- C4 witness: freshness of a concrete duplicate identifier. -/
theorem dupId_fresh_witness :
    dupId "i-0aaa" 3 ≠ "i-0aaa" ∧ dupId "i-0aaa" 3 ≠ dupId "i-0aaa" 4 :=
  ⟨(dupId_fresh "i-0aaa" 3 4).1, (dupId_fresh "i-0aaa" 3 4).2 (by decide)⟩

/-! ### Claim C9 -/

/-- C9 counterexample: the launch list `"i-0aaa,i-0zzz"` names two targets
but the fetched inventory contains only the first, so the fan-out creates
one session entry and one connect call — not one per listed identifier. -/
theorem init_fanout_cex :
    (parseInstances (some "i-0aaa,i-0zzz")).length = 2 ∧
    (initFromQuery (parseInstances (some "i-0aaa,i-0zzz")) [instNoCredA]).1.sessions.length = 1 ∧
    (initFromQuery (parseInstances (some "i-0aaa,i-0zzz")) [instNoCredA]).2.length = 1 := by
  decide

/-- C9 amended: assuming the inventory's instance ids are distinct, the init
effect creates exactly one session entry and one connect call per inventory
instance whose id occurs in the launch list, in inventory order; listed ids
matching no inventory instance are silently dropped. -/
theorem initFromQuery_fanout (ids : List String) (allInstances : List EC2Instance)
    (hnd : (allInstances.map (fun i => i.instanceId)).Nodup) :
    (initFromQuery ids allInstances).1.sessions =
      (allInstances.filter (fun i => ids.contains i.instanceId)).map
        (fun i => (i.instanceId, initialSession i)) ∧
    (initFromQuery ids allInstances).2 =
      (allInstances.filter (fun i => ids.contains i.instanceId)).map
        (fun i => i.instanceId) := by
  by_cases hc : ids ≠ [] ∧ allInstances ≠ []
  · have hsel : ((allInstances.filter (fun i => ids.contains i.instanceId)).map
        (fun i => i.instanceId)).Nodup :=
      List.Nodup.sublist (List.Sublist.map _ (List.filter_sublist _)) hnd
    have hfold := foldl_mapSet_fresh (allInstances.filter (fun i => ids.contains i.instanceId))
      [] hsel (fun i _ => rfl)
    constructor
    · simp only [initFromQuery, if_pos hc]
      rw [hfold]
      simp
    · simp [initFromQuery, if_pos hc]
  · rw [not_and_or] at hc
    rcases hc with hc | hc
    · rw [not_not] at hc
      subst hc
      simp [initFromQuery]
    · rw [not_not] at hc
      subst hc
      simp [initFromQuery]

/-- C9 witness: the amended fan-out on a concrete inventory. -/
theorem initFromQuery_fanout_witness :
    (initFromQuery ["i-0aaa"] [instNoCredA, instWithCred]).1.sessions =
      ([instNoCredA, instWithCred].filter
        (fun i => ["i-0aaa"].contains i.instanceId)).map
          (fun i => (i.instanceId, initialSession i)) ∧
    (initFromQuery ["i-0aaa"] [instNoCredA, instWithCred]).2 =
      ([instNoCredA, instWithCred].filter
        (fun i => ["i-0aaa"].contains i.instanceId)).map (fun i => i.instanceId) :=
  initFromQuery_fanout ["i-0aaa"] [instNoCredA, instWithCred] (by decide)
